import Mathlib

set_option linter.unusedVariables false

/-!
# Verification of the Content-Factory pipeline orchestrator

Shallow embedding of `app/services/social_media_publisher.py` and
`app/services/automated_publisher.py`.  External effects (the product-discovery
API call, database saves, the per-platform network publishers, and the
opaque per-item generation / publish calls made by the orchestrator loop) are
modelled as explicit outcome oracles passed in as arguments; everything the
Python functions compute from those outcomes is translated directly.
-/

namespace ContentFactory

/-! ## social_media_publisher.py -/

/-- A publication-result dictionary as returned by the per-platform publishers.
`status` is present in every dictionary the source constructs; the other keys
may be absent (`none`).  `publish_to_youtube`'s success dictionary carries a
`video_id` key instead of `post_id`, so its `post_id` is `none` here. -/
structure PubResult where
  platform : Option String
  status : String
  post_id : Option String
  post_url : Option String
  error : Option String
deriving DecidableEq, Repr

/-- `publish_to_tiktok(video_url, caption)`: the body either completes (the
simulated success dictionary) or raises; `exn` is the formatted message of the
exception caught by the `except` clauses, which return the failure dictionary. -/
def publish_to_tiktok (video_url caption : String) (exn : Option String) : PubResult :=
  match exn with
  | none =>
      { platform := some "tiktok", status := "published",
        post_id := some "tiktok_123456789",
        post_url := some "https://www.tiktok.com/@user/video/123456789",
        error := none }
  | some e =>
      { platform := some "tiktok", status := "failed",
        post_id := none, post_url := none, error := some e }

/-- `publish_to_instagram(video_url, caption)`: on success the Graph API
responds with a media id (`Except.ok id`); any raise (missing page id, HTTP
error, ...) is caught and becomes the failure dictionary (`Except.error msg`). -/
def publish_to_instagram (video_url caption : String) (outcome : Except String String) :
    PubResult :=
  match outcome with
  | Except.ok id =>
      { platform := some "instagram", status := "published",
        post_id := some id,
        post_url := some ("https://www.instagram.com/p/" ++ id ++ "/"),
        error := none }
  | Except.error e =>
      { platform := some "instagram", status := "failed",
        post_id := none, post_url := none, error := some e }

/-- `publish_to_youtube(video_url, title, description)`: simulated success or a
caught exception turned into the failure dictionary. -/
def publish_to_youtube (video_url title description : String) (exn : Option String) :
    PubResult :=
  match exn with
  | none =>
      { platform := some "youtube", status := "published",
        post_id := none,
        post_url := some "https://www.youtube.com/watch?v=ABC123",
        error := none }
  | some e =>
      { platform := some "youtube", status := "failed",
        post_id := none, post_url := none, error := some e }

/-- The external outcomes of one fan-out: what each platform's publish body
does (complete, or raise with a message). -/
structure PubWorld where
  tiktok : Option String
  instagram : Except String String
  youtube : Option String

/-- The conversion `publish_to_multiple_platforms` applies to each entry of
`asyncio.gather(..., return_exceptions=True)`: an `Exception` entry becomes a
`status="error"` dictionary, anything else passes through.  (Each platform
coroutine catches its own exceptions, so the error branch is unreachable when
the list is built from the three publishers above.) -/
def gatherWrap (r : Except String PubResult) : PubResult :=
  match r with
  | Except.ok r => r
  | Except.error e =>
      { platform := none, status := "error", post_id := none, post_url := none,
        error := some e }

/-- `publish_to_multiple_platforms(video_url, title, description)`.  Note the
source takes no platform-set parameter: the task list is fixed to
tiktok / instagram / youtube, with the description passed as the caption of
the first two. -/
def publish_to_multiple_platforms (video_url title description : String) (w : PubWorld) :
    List PubResult :=
  [gatherWrap (Except.ok (publish_to_tiktok video_url description w.tiktok)),
   gatherWrap (Except.ok (publish_to_instagram video_url description w.instagram)),
   gatherWrap (Except.ok (publish_to_youtube video_url title description w.youtube))]

/-! ## automated_publisher.py -/

/-- The `reach_estimates` table of `_estimate_platform_reach`. -/
def reach_estimates : List (String × ℕ) :=
  [("tiktok", 10000), ("instagram", 5000), ("youtube", 3000),
   ("facebook", 2000), ("twitter", 1500)]

/-- Python's `str.lower()` (character-wise lower-casing). -/
def pyLower (s : String) : String :=
  ⟨s.data.map Char.toLower⟩

/-- `_estimate_platform_reach(platform)`: table lookup on the lower-cased
platform name, defaulting to 1000. -/
def estimate_platform_reach (platform : String) : ℕ :=
  (reach_estimates.lookup (pyLower platform)).getD 1000

/-- One record of the list `_publish_content` returns: the fields copied from
the platform result plus the attached `reach_potential` estimate. -/
structure PubRecord where
  platform : Option String
  status : String
  post_id : Option String
  post_url : Option String
  reach_potential : ℕ
deriving DecidableEq, Repr

/-- A content item as assembled by `_create_content_for_product`. -/
structure ContentItem where
  product_id : ℤ
  product_name : String
  video_id : ℤ
  video_url : String
  script : String
  title : String
  description : String
deriving DecidableEq, Repr

/-- The record-building loop of `_publish_content`: for each platform result,
saving the `SocialMediaPost` row may raise (`saveOk i = false`), in which case
the record is skipped (`continue`); otherwise the record is appended with
`reach_potential` estimated from the result's platform regardless of status. -/
def publish_content_records (results : List PubResult) (saveOk : ℕ → Bool) :
    List PubRecord :=
  results.enum.filterMap fun p =>
    if saveOk p.1 then
      some { platform := p.2.platform, status := p.2.status,
             post_id := p.2.post_id, post_url := p.2.post_url,
             reach_potential := estimate_platform_reach (p.2.platform.getD "unknown") }
    else none

/-- `_publish_content(content_item, platforms)`: calls
`publish_to_multiple_platforms` (without ever passing `platforms` down) and
builds the publication records.  Its own `try/except` returns `[]` only if the
fan-out call raises, which the model's total fan-out cannot. -/
def publish_content (item : ContentItem) (platforms : List String) (w : PubWorld)
    (saveOk : ℕ → Bool) : List PubRecord :=
  publish_content_records
    (publish_to_multiple_platforms item.video_url item.title item.description w) saveOk

/-! ### Python `round(x, 2)` on exact rationals -/

/-- Round to the nearest integer, ties to the even integer (Python rounding). -/
def roundHalfEven (q : ℚ) : ℤ :=
  if q - ⌊q⌋ < 1/2 then ⌊q⌋
  else if 1/2 < q - ⌊q⌋ then ⌊q⌋ + 1
  else if ⌊q⌋ % 2 = 0 then ⌊q⌋ else ⌊q⌋ + 1

/-- `round(q, 2)`: round to the nearest multiple of 1/100, ties to even. -/
def pyRound2 (q : ℚ) : ℚ := (roundHalfEven (q * 100) : ℚ) / 100

/-- The dictionary `_calculate_pipeline_metrics` returns. -/
structure Metrics where
  platforms_reached : List (Option String)
  total_potential_reach : ℕ
  success_rate : ℚ
  successful_publications : ℕ
  failed_publications : ℕ
deriving DecidableEq, Repr

/-- `_calculate_pipeline_metrics(publication_results)`.  `platforms_reached`
is `list(set(...))` in the source — an unordered distinct list; `List.dedup`
is the representative (membership and distinctness agree with `set`). -/
def calculate_pipeline_metrics (rs : List PubRecord) : Metrics :=
  let total_reach := (rs.map PubRecord.reach_potential).sum
  let successful_posts := (rs.filter fun r => r.status == "published").length
  let total_posts := rs.length
  let platforms_reached :=
    ((rs.filter fun r => r.status == "published").map PubRecord.platform).dedup
  let success_rate : ℚ :=
    if 0 < total_posts then (successful_posts : ℚ) / (total_posts : ℚ) * 100 else 0
  { platforms_reached := platforms_reached
    total_potential_reach := total_reach
    success_rate := pyRound2 success_rate
    successful_publications := successful_posts
    failed_publications := total_posts - successful_posts }

/-! ### Discovery (`_discover_and_save_products`) -/

/-- A product row (the fields the pipeline reads). -/
structure Product where
  id : ℤ
  name : String
  url : String
deriving DecidableEq, Repr

/-- External outcomes of one discovery phase: `api` is what
`discover_trending_products_from_api()` does (a product list, or a raise);
`save i p` is what the save block does for the `i`-th sliced item — the saved
(or already-existing) product, or `none` when it raises and the loop
`continue`s. -/
structure DiscoveryWorld where
  api : Except String (List Product)
  save : ℕ → Product → Option Product

/-- Python's `xs[:limit]` for an `int` limit: first `limit` items when
`limit ≥ 0`, all but the last `-limit` items when negative. -/
def pySliceTo {α : Type} (limit : ℤ) (xs : List α) : List α :=
  if 0 ≤ limit then xs.take limit.toNat
  else xs.take ((xs.length : ℤ) + limit).toNat

/-- `_discover_and_save_products(limit)`: on an API raise the outer `except`
returns `[]`; otherwise the fetched list is sliced to `limit` and each item is
saved (create-or-reuse), skipping items whose save raises. -/
def discover_and_save_products (w : DiscoveryWorld) (limit : ℤ) : List Product :=
  match w.api with
  | Except.error _ => []
  | Except.ok product_data =>
      (pySliceTo limit product_data).enum.filterMap fun p => w.save p.1 p.2

/-! ### The pipeline orchestrator (`execute_full_content_pipeline`) -/

/-- Outcome of the opaque call `_create_content_for_product(product)` as seen
by the step-2 loop: it may raise (`exn`), return `None` (`noItem`), or return
a content item. -/
inductive GenRes where
  | exn (e : String)
  | noItem
  | item (c : ContentItem)

/-- External outcomes driving one pipeline run past discovery: `gen i` is the
generation outcome for the `i`-th discovered product; for the `j`-th content
item, `pubExn j` says whether the `_publish_content` call raises at the step-3
loop boundary, and otherwise `pubWorld j` / `postSave j` drive its fan-out and
record saves. -/
structure PipelineEnv where
  gen : ℕ → GenRes
  pubExn : ℕ → Option String
  pubWorld : ℕ → PubWorld
  postSave : ℕ → ℕ → Bool

/-- The step-2 `for product in products` loop, processed front to back:
a raise appends one `"Video creation failed: ..."` error string and moves on,
a `None` result is skipped, a content item is collected and counted.
Returns (content_items, videos_created, errors). -/
def genLoop (gen : ℕ → GenRes) : List (ℕ × Product) → List ContentItem × ℕ × List String
  | [] => ([], 0, [])
  | p :: rest =>
      let acc := genLoop gen rest
      match gen p.1 with
      | GenRes.exn e => (acc.1, acc.2.1, ("Video creation failed: " ++ e) :: acc.2.2)
      | GenRes.noItem => acc
      | GenRes.item c => (c :: acc.1, acc.2.1 + 1, acc.2.2)

/-- Step 2 over the discovered products. -/
def generationStep (products : List Product) (gen : ℕ → GenRes) :
    List ContentItem × ℕ × List String :=
  genLoop gen products.enum

/-- The step-3 `for content_item in content_items` loop: a raising
`_publish_content` call appends one `"Publishing failed: ..."` error string
and moves on; otherwise its records are appended and counted.
Returns (publication_results, posts_published, errors). -/
def pubLoop (env : PipelineEnv) (platforms : List String) :
    List (ℕ × ContentItem) → List PubRecord × ℕ × List String
  | [] => ([], 0, [])
  | p :: rest =>
      let acc := pubLoop env platforms rest
      match env.pubExn p.1 with
      | some e => (acc.1, acc.2.1, ("Publishing failed: " ++ e) :: acc.2.2)
      | none =>
          let recs := publish_content p.2 platforms (env.pubWorld p.1) (env.postSave p.1)
          (recs ++ acc.1, recs.length + acc.2.1, acc.2.2)

/-- Step 3 over the generated content items. -/
def publishingStep (items : List ContentItem) (env : PipelineEnv)
    (platforms : List String) : List PubRecord × ℕ × List String :=
  pubLoop env platforms items.enum

/-- The `pipeline_results` dictionary returned to the caller.  The two
`*_publications` keys are absent from the initial dictionary and only added by
the step-4 `update`, hence `Option`. -/
structure PipelineResults where
  status : String
  products_discovered : ℕ
  videos_created : ℕ
  posts_published : ℕ
  platforms_reached : List (Option String)
  total_potential_reach : ℕ
  errors : List String
  success_rate : ℚ
  successful_publications : Option ℕ
  failed_publications : Option ℕ
deriving Repr

/-- `execute_full_content_pipeline(target_platforms, product_limit)`.  The
empty-discovery branch returns early with `status="failed"` and the single
error `"No trending products found"`, leaving every other field at its
initial value; otherwise steps 2–4 run and the run is marked `"completed"`.
The surrounding `try/except` would also stamp `"failed"` on a raise inside the
body, but every fallible sub-step is already absorbed at an inner boundary
(discovery returns `[]`, the two loops catch per item), so the body is total
here. -/
def execute_full_content_pipeline (dw : DiscoveryWorld) (env : PipelineEnv)
    (target_platforms : List String) (product_limit : ℤ) : PipelineResults :=
  let products := discover_and_save_products dw product_limit
  if products.isEmpty then
    { status := "failed"
      products_discovered := products.length
      videos_created := 0
      posts_published := 0
      platforms_reached := []
      total_potential_reach := 0
      errors := ["No trending products found"]
      success_rate := 0
      successful_publications := none
      failed_publications := none }
  else
    let g := generationStep products env.gen
    let pb := publishingStep g.1 env target_platforms
    let m := calculate_pipeline_metrics pb.1
    { status := "completed"
      products_discovered := products.length
      videos_created := g.2.1
      posts_published := pb.2.1
      platforms_reached := m.platforms_reached
      total_potential_reach := m.total_potential_reach
      errors := g.2.2 ++ pb.2.2
      success_rate := m.success_rate
      successful_publications := some m.successful_publications
      failed_publications := some m.failed_publications }

/-! ## Concrete worlds used to evaluate the model on closed inputs -/

/-- A fan-out world in which every platform publish succeeds. -/
def okPubWorld : PubWorld :=
  { tiktok := none, instagram := Except.ok "IG123", youtube := none }

/-- A fan-out world in which the Instagram publish call raises. -/
def igFailWorld : PubWorld :=
  { tiktok := none, instagram := Except.error "boom", youtube := none }

/-- A fixed content item. -/
def sampleItem : ContentItem :=
  { product_id := 1, product_name := "Gadget", video_id := 11,
    video_url := "https://example.com/v.mp4", script := "s",
    title := "T", description := "D" }

/-- Discovery world whose API call returns the empty product list and whose
saves all succeed. -/
def emptyDiscovery : DiscoveryWorld :=
  { api := Except.ok [], save := fun _ p => some p }

/-- Discovery world returning one product. -/
def oneProductDiscovery : DiscoveryWorld :=
  { api := Except.ok [{ id := 1, name := "A", url := "u1" }],
    save := fun _ p => some p }

/-- Discovery world returning three products. -/
def threeProductDiscovery : DiscoveryWorld :=
  { api := Except.ok [{ id := 1, name := "A", url := "u1" },
                      { id := 2, name := "B", url := "u2" },
                      { id := 3, name := "C", url := "u3" }],
    save := fun _ p => some p }

/-- Pipeline environment in which generation yields an item for every product
and every publish and save succeeds. -/
def allOkEnv : PipelineEnv :=
  { gen := fun _ => GenRes.item sampleItem,
    pubExn := fun _ => none,
    pubWorld := fun _ => okPubWorld,
    postSave := fun _ _ => true }

/-- Like `allOkEnv`, but every Instagram publish attempt raises. -/
def igFailEnv : PipelineEnv :=
  { gen := fun _ => GenRes.item sampleItem,
    pubExn := fun _ => none,
    pubWorld := fun _ => igFailWorld,
    postSave := fun _ _ => true }

/-- Environment in which generation returns `None` for every product. -/
def nullGenEnv : PipelineEnv :=
  { gen := fun _ => GenRes.noItem,
    pubExn := fun _ => none,
    pubWorld := fun _ => okPubWorld,
    postSave := fun _ _ => true }

/-- Discovery world whose API call raises. -/
def failDiscovery : DiscoveryWorld :=
  { api := Except.error "connection refused", save := fun _ p => some p }

/-- A finished run's records with one published post out of three attempts. -/
def thirdRateRecords : List PubRecord :=
  [{ platform := some "tiktok", status := "published", post_id := none,
     post_url := none, reach_potential := 10000 },
   { platform := some "tiktok", status := "failed", post_id := none,
     post_url := none, reach_potential := 10000 },
   { platform := some "youtube", status := "failed", post_id := none,
     post_url := none, reach_potential := 3000 }]

/-! ## Structural lemmas about the loops and the rounding -/

theorem genLoop_items (gen : ℕ → GenRes) (l : List (ℕ × Product)) :
    (genLoop gen l).1 = l.filterMap fun p =>
      match gen p.1 with
      | GenRes.item c => some c
      | _ => none := by
  induction l with
  | nil => rfl
  | cons p rest ih =>
      cases h : gen p.1 <;> simp [genLoop, List.filterMap_cons, h, ih]

theorem genLoop_errors (gen : ℕ → GenRes) (l : List (ℕ × Product)) :
    (genLoop gen l).2.2 = l.filterMap fun p =>
      match gen p.1 with
      | GenRes.exn e => some ("Video creation failed: " ++ e)
      | _ => none := by
  induction l with
  | nil => rfl
  | cons p rest ih =>
      cases h : gen p.1 <;> simp [genLoop, List.filterMap_cons, h, ih]

theorem pubLoop_errors (env : PipelineEnv) (platforms : List String)
    (l : List (ℕ × ContentItem)) :
    (pubLoop env platforms l).2.2 = l.filterMap fun p =>
      match env.pubExn p.1 with
      | some e => some ("Publishing failed: " ++ e)
      | none => none := by
  induction l with
  | nil => rfl
  | cons p rest ih =>
      cases h : env.pubExn p.1 <;> simp [pubLoop, List.filterMap_cons, h, ih]

theorem mem_publish_content_records (results : List PubResult) (saveOk : ℕ → Bool)
    (r : PubRecord) (hr : r ∈ publish_content_records results saveOk) :
    r.reach_potential = estimate_platform_reach (r.platform.getD "unknown") ∧
    ∃ p ∈ results, r.platform = p.platform ∧ r.status = p.status := by
  simp only [publish_content_records, List.mem_filterMap] at hr
  obtain ⟨⟨i, pr⟩, hmem, hif⟩ := hr
  by_cases h : saveOk i
  · simp only [h, if_true, Option.some.injEq] at hif
    subst hif
    refine ⟨rfl, pr, ?_, rfl, rfl⟩
    have := List.mem_map_of_mem Prod.snd hmem
    simpa [List.enum_map_snd] using this
  · simp [h] at hif

theorem le_roundHalfEven (n : ℤ) (q : ℚ) (h : (n : ℚ) ≤ q) :
    n ≤ roundHalfEven q := by
  have hf : n ≤ ⌊q⌋ := Int.le_floor.mpr h
  unfold roundHalfEven
  split_ifs <;> omega

theorem roundHalfEven_le (n : ℤ) (q : ℚ) (h : q ≤ (n : ℚ)) :
    roundHalfEven q ≤ n := by
  have hf : ⌊q⌋ ≤ n := by
    have h1 := Int.floor_le_floor h
    simpa using h1
  have hfq := Int.floor_le q
  unfold roundHalfEven
  split_ifs with h1 h2 h3
  · exact hf
  · have hlt : (⌊q⌋ : ℚ) < q := by linarith
    have : ⌊q⌋ < n := by exact_mod_cast lt_of_lt_of_le hlt h
    omega
  · exact hf
  · have hge : (1 : ℚ)/2 ≤ q - ⌊q⌋ := not_lt.mp h1
    have hlt : (⌊q⌋ : ℚ) < q := by linarith
    have : ⌊q⌋ < n := by exact_mod_cast lt_of_lt_of_le hlt h
    omega

theorem pyRound2_nonneg (q : ℚ) (h : 0 ≤ q) : 0 ≤ pyRound2 q := by
  unfold pyRound2
  have h0 : (0 : ℤ) ≤ roundHalfEven (q * 100) := by
    refine le_roundHalfEven 0 _ ?_
    push_cast
    nlinarith
  have : (0 : ℚ) ≤ (roundHalfEven (q * 100) : ℚ) := by exact_mod_cast h0
  positivity

theorem pyRound2_le_hundred (q : ℚ) (h : q ≤ 100) : pyRound2 q ≤ 100 := by
  unfold pyRound2
  have h0 : roundHalfEven (q * 100) ≤ 10000 := by
    refine roundHalfEven_le 10000 _ ?_
    push_cast
    nlinarith
  have h1 : (roundHalfEven (q * 100) : ℚ) ≤ 10000 := by exact_mod_cast h0
  rw [div_le_iff₀ (by norm_num : (0:ℚ) < 100)]
  linarith

theorem pyRound2_zero : pyRound2 0 = 0 := by
  norm_num [pyRound2, roundHalfEven]

theorem discover_length_le_limit (w : DiscoveryWorld) (n : ℤ) (h : 0 ≤ n) :
    ((discover_and_save_products w n).length : ℤ) ≤ n := by
  unfold discover_and_save_products
  cases hapi : w.api with
  | error e => simpa using h
  | ok data =>
      have h1 := List.length_filterMap_le (fun p => w.save p.1 p.2) (pySliceTo n data).enum
      have h2 : (pySliceTo n data).enum.length = (pySliceTo n data).length :=
        List.enum_length
      have h3 : (pySliceTo n data).length ≤ n.toNat := by
        unfold pySliceTo
        rw [if_pos h, List.length_take]
        exact min_le_left _ _
      simp only []
      omega

/-! ## Claims C1 to C5 -/

/-- Claim C1 counterexample: a run whose discovery phase returns the empty
product list ends with status `failed`, not `completed` — the code treats the
empty result as an error, contrary to the claim. -/
theorem empty_discovery_run_not_completed :
    (execute_full_content_pipeline emptyDiscovery allOkEnv
        ["tiktok", "instagram", "youtube"] 5).status ≠ "completed" ∧
    (execute_full_content_pipeline emptyDiscovery allOkEnv
        ["tiktok", "instagram", "youtube"] 5).status = "failed" := by
  constructor <;> decide

/-- Claim C1, amended: for every pipeline run in which the discovery phase
yields an empty product list, the run ends with status `failed`, the single
error string `"No trending products found"` is appended, and
`products_discovered`, `videos_created` (the content-item count),
`posts_published` and `success_rate` are all 0. -/
theorem empty_discovery_run_fails_with_zero_items
    (dw : DiscoveryWorld) (env : PipelineEnv) (tp : List String) (n : ℤ)
    (h : discover_and_save_products dw n = []) :
    (execute_full_content_pipeline dw env tp n).status = "failed" ∧
    (execute_full_content_pipeline dw env tp n).products_discovered = 0 ∧
    (execute_full_content_pipeline dw env tp n).videos_created = 0 ∧
    (execute_full_content_pipeline dw env tp n).posts_published = 0 ∧
    (execute_full_content_pipeline dw env tp n).success_rate = 0 ∧
    (execute_full_content_pipeline dw env tp n).errors =
      ["No trending products found"] := by
  simp [execute_full_content_pipeline, h]

/-- Witness for the amended C1 at a concrete empty-discovery world. -/
theorem empty_discovery_run_fails_with_zero_items_witness :
    discover_and_save_products emptyDiscovery 5 = [] ∧
    (execute_full_content_pipeline emptyDiscovery allOkEnv ["tiktok"] 5).status
      = "failed" ∧
    (execute_full_content_pipeline emptyDiscovery allOkEnv ["tiktok"] 5).errors
      = ["No trending products found"] :=
  ⟨rfl,
   (empty_discovery_run_fails_with_zero_items emptyDiscovery allOkEnv
      ["tiktok"] 5 rfl).1,
   (empty_discovery_run_fails_with_zero_items emptyDiscovery allOkEnv
      ["tiktok"] 5 rfl).2.2.2.2.2⟩

/-- Claim C2 counterexample: a run that generates 3 content items and is asked
to publish to the set {tiktok, instagram} reports `posts_published = 9`, not 6:
the fan-out ignores the requested platform set and always dispatches to the
fixed three platforms, as the last conjunct shows. -/
theorem posts_published_ignores_requested_platforms :
    (execute_full_content_pipeline threeProductDiscovery allOkEnv
        ["tiktok", "instagram"] 5).posts_published = 9 ∧
    (execute_full_content_pipeline threeProductDiscovery allOkEnv
        ["tiktok", "instagram"] 5).posts_published ≠ 6 ∧
    (publish_to_multiple_platforms "v" "t" "d" okPubWorld).map PubResult.platform =
      [some "tiktok", some "instagram", some "youtube"] := by
  refine ⟨by decide, by decide, by decide⟩

/-- Claim C2, amended: the publish fan-out takes no platform-set parameter and
always dispatches exactly one attempt per fixed platform tiktok, instagram,
youtube, returning exactly one result per fixed platform; the requested
`target_platforms` list is ignored end to end, so a run generating 3 content
items whose publishes all succeed reports `posts_published = 9` for every
requested set. -/
theorem publish_fanout_uses_fixed_platform_set (v t d : String) (w : PubWorld)
    (c : ContentItem) (tp tp' : List String) (save : ℕ → Bool) :
    (publish_to_multiple_platforms v t d w).map PubResult.platform =
      [some "tiktok", some "instagram", some "youtube"] ∧
    (publish_to_multiple_platforms v t d w).length = 3 ∧
    publish_content c tp w save = publish_content c tp' w save ∧
    ∀ tps : List String,
      (execute_full_content_pipeline threeProductDiscovery allOkEnv tps 5).posts_published
        = 9 := by
  refine ⟨?_, rfl, rfl, fun tps => rfl⟩
  obtain ⟨tk, ig, yt⟩ := w
  cases tk <;> cases ig <;> cases yt <;> rfl

/-- Claim C3 counterexample: in a run where the tiktok and youtube publishes
succeed but the instagram publish fails, `total_potential_reach` is
10000 + 5000 + 3000 = 18000 — the failed instagram result still contributes
its 5000 — not the 13000 the claim (published results only) predicts. -/
theorem total_reach_includes_failed_results :
    (execute_full_content_pipeline oneProductDiscovery igFailEnv
        ["tiktok"] 5).total_potential_reach = 18000 ∧
    (execute_full_content_pipeline oneProductDiscovery igFailEnv
        ["tiktok"] 5).total_potential_reach ≠ 13000 := by
  constructor <;> decide

/-- Claim C3, amended: `total_potential_reach` is the sum of the fixed
per-platform reach table ({tiktok:10000, instagram:5000, youtube:3000,
facebook:2000, twitter:1500}, default 1000 for an unknown platform) over ALL
publication results of the run, failed results included: every record carries
the table estimate of its platform regardless of status, and the metrics sum
every record. -/
theorem total_reach_sums_table_over_all_results (rs : List PubRecord)
    (c : ContentItem) (tp : List String) (w : PubWorld) (save : ℕ → Bool) :
    (calculate_pipeline_metrics rs).total_potential_reach =
      (rs.map PubRecord.reach_potential).sum ∧
    (∀ r ∈ publish_content c tp w save,
      r.reach_potential = estimate_platform_reach (r.platform.getD "unknown")) ∧
    estimate_platform_reach "tiktok" = 10000 ∧
    estimate_platform_reach "instagram" = 5000 ∧
    estimate_platform_reach "youtube" = 3000 ∧
    estimate_platform_reach "facebook" = 2000 ∧
    estimate_platform_reach "twitter" = 1500 ∧
    estimate_platform_reach "newsletter" = 1000 := by
  refine ⟨rfl, ?_, by decide, by decide, by decide, by decide, by decide, by decide⟩
  intro r hr
  exact (mem_publish_content_records _ _ r hr).1

/-- Witness for the amended C3 at a concrete record list and fan-out world. -/
theorem total_reach_sums_table_over_all_results_witness :
    (calculate_pipeline_metrics thirdRateRecords).total_potential_reach =
      (thirdRateRecords.map PubRecord.reach_potential).sum ∧
    (∀ r ∈ publish_content sampleItem [] igFailWorld fun _ => true,
      r.reach_potential = estimate_platform_reach (r.platform.getD "unknown")) ∧
    estimate_platform_reach "tiktok" = 10000 :=
  ⟨(total_reach_sums_table_over_all_results thirdRateRecords sampleItem []
      igFailWorld fun _ => true).1,
   (total_reach_sums_table_over_all_results thirdRateRecords sampleItem []
      igFailWorld fun _ => true).2.1,
   (total_reach_sums_table_over_all_results thirdRateRecords sampleItem []
      igFailWorld fun _ => true).2.2.1⟩

/-- Claim C4 counterexample: a run whose single product makes the generator
return null ends completed with zero publication results but also with an
EMPTY errors list — the claim demands exactly one appended error string for
that product, the code appends none (the null result is skipped silently). -/
theorem null_generation_appends_no_error :
    (execute_full_content_pipeline oneProductDiscovery nullGenEnv
        ["tiktok"] 5).status = "completed" ∧
    (execute_full_content_pipeline oneProductDiscovery nullGenEnv
        ["tiktok"] 5).posts_published = 0 ∧
    (execute_full_content_pipeline oneProductDiscovery nullGenEnv
        ["tiktok"] 5).errors = [] ∧
    (execute_full_content_pipeline oneProductDiscovery nullGenEnv
        ["tiktok"] 5).errors.length ≠ 1 := by
  refine ⟨by decide, by decide, by decide, by decide⟩

/-- Claim C4, amended: a product whose generation step RAISES contributes zero
content items (hence zero publication results) and exactly one error string
`"Video creation failed: ..."`; a product whose generation step returns null
contributes zero content items and NO error string — it is skipped silently.
The content items of a run are exactly those of the products whose generation
returned an item, and the step-2 errors are exactly the messages of the
products whose generation raised. -/
theorem generation_failure_item_contributions (products : List Product)
    (gen : ℕ → GenRes) :
    (generationStep products gen).1 = (products.enum.filterMap fun p =>
      match gen p.1 with
      | GenRes.item c => some c
      | _ => none) ∧
    (generationStep products gen).2.2 = (products.enum.filterMap fun p =>
      match gen p.1 with
      | GenRes.exn e => some ("Video creation failed: " ++ e)
      | _ => none) :=
  ⟨genLoop_items gen products.enum, genLoop_errors gen products.enum⟩

/-- Claim C5: the fan-out is total (always a 3-element result list, never a
raised exception); every result has status published or failed; a platform
attempt that raises is converted into a failed result carrying the error
message as a string; and the other two entries of the list are exactly the
outputs of the sibling platform publishers, so a failure on one platform
leaves the sibling results unaffected. -/
theorem publish_all_absorbs_platform_exceptions (v t d : String) (w : PubWorld) :
    (publish_to_multiple_platforms v t d w).length = 3 ∧
    (∀ r ∈ publish_to_multiple_platforms v t d w,
      r.status = "published" ∨ r.status = "failed") ∧
    (∀ e, w.tiktok = some e →
      publish_to_multiple_platforms v t d w =
        [{ platform := some "tiktok", status := "failed", post_id := none,
           post_url := none, error := some e },
         publish_to_instagram v d w.instagram,
         publish_to_youtube v t d w.youtube]) ∧
    (∀ e, w.instagram = Except.error e →
      publish_to_multiple_platforms v t d w =
        [publish_to_tiktok v d w.tiktok,
         { platform := some "instagram", status := "failed", post_id := none,
           post_url := none, error := some e },
         publish_to_youtube v t d w.youtube]) ∧
    (∀ e, w.youtube = some e →
      publish_to_multiple_platforms v t d w =
        [publish_to_tiktok v d w.tiktok,
         publish_to_instagram v d w.instagram,
         { platform := some "youtube", status := "failed", post_id := none,
           post_url := none, error := some e }]) := by
  refine ⟨rfl, ?_, ?_, ?_, ?_⟩
  · intro r hr
    simp only [publish_to_multiple_platforms, gatherWrap, List.mem_cons,
      List.not_mem_nil, or_false] at hr
    rcases hr with h | h | h <;> subst h
    · cases w.tiktok <;> simp [publish_to_tiktok]
    · cases w.instagram <;> simp [publish_to_instagram]
    · cases w.youtube <;> simp [publish_to_youtube]
  · intro e he
    simp [publish_to_multiple_platforms, gatherWrap, publish_to_tiktok, he]
  · intro e he
    simp [publish_to_multiple_platforms, gatherWrap, publish_to_instagram, he]
  · intro e he
    simp [publish_to_multiple_platforms, gatherWrap, publish_to_youtube, he]

/-- Witness for C5: the Instagram attempt raising `"boom"` yields the failed
Instagram result while the tiktok and youtube entries are their own
publisher outputs. -/
theorem publish_all_absorbs_platform_exceptions_witness :
    igFailWorld.instagram = Except.error "boom" ∧
    publish_to_multiple_platforms "v" "t" "d" igFailWorld =
      [publish_to_tiktok "v" "d" igFailWorld.tiktok,
       { platform := some "instagram", status := "failed", post_id := none,
         post_url := none, error := some "boom" },
       publish_to_youtube "v" "t" "d" igFailWorld.youtube] :=
  ⟨rfl,
   (publish_all_absorbs_platform_exceptions "v" "t" "d" igFailWorld).2.2.2.1
     "boom" rfl⟩

/-! ## Claims C6 to C10 -/

/-- Helper: when discovery yields at least one product, the errors of the run
are the step-2 loop errors followed by the step-3 loop errors. -/
theorem pipeline_errors_eq (dw : DiscoveryWorld) (env : PipelineEnv)
    (tp : List String) (n : ℤ) (hp : discover_and_save_products dw n ≠ []) :
    (execute_full_content_pipeline dw env tp n).errors =
      (generationStep (discover_and_save_products dw n) env.gen).2.2 ++
      (publishingStep (generationStep (discover_and_save_products dw n) env.gen).1
        env tp).2.2 := by
  simp [execute_full_content_pipeline, hp]

/-- Claim C6: an exception while processing a single item in step 2 or step 3
is caught at that item boundary and converted into an appended error string,
and the loop continues with every remaining item (the error lists are exactly
the per-item exception messages across ALL items, and such a run still ends
`completed`); the run status is `failed` exactly when the discovery phase
produced no products, and a discovery-phase exception short-circuits steps
2 to 4 (no videos, no posts). -/
theorem item_errors_absorbed_only_discovery_fatal
    (dw : DiscoveryWorld) (env : PipelineEnv) (tp : List String) (n : ℤ) :
    ((execute_full_content_pipeline dw env tp n).status = "failed" ↔
      discover_and_save_products dw n = []) ∧
    (∀ e, dw.api = Except.error e →
      (execute_full_content_pipeline dw env tp n).status = "failed" ∧
      (execute_full_content_pipeline dw env tp n).videos_created = 0 ∧
      (execute_full_content_pipeline dw env tp n).posts_published = 0 ∧
      (execute_full_content_pipeline dw env tp n).errors =
        ["No trending products found"]) ∧
    (discover_and_save_products dw n ≠ [] →
      (execute_full_content_pipeline dw env tp n).status = "completed" ∧
      (execute_full_content_pipeline dw env tp n).errors =
        ((discover_and_save_products dw n).enum.filterMap fun p =>
          match env.gen p.1 with
          | GenRes.exn e => some ("Video creation failed: " ++ e)
          | _ => none) ++
        ((generationStep (discover_and_save_products dw n) env.gen).1.enum.filterMap
          fun p =>
            match env.pubExn p.1 with
            | some e => some ("Publishing failed: " ++ e)
            | none => none)) := by
  refine ⟨?_, ?_, ?_⟩
  · by_cases hp : discover_and_save_products dw n = [] <;>
      simp [execute_full_content_pipeline, hp]
  · intro e he
    have hp : discover_and_save_products dw n = [] := by
      unfold discover_and_save_products
      rw [he]
    simp [execute_full_content_pipeline, hp]
  · intro hp
    refine ⟨by simp [execute_full_content_pipeline, hp], ?_⟩
    rw [pipeline_errors_eq dw env tp n hp]
    simp only [generationStep, publishingStep]
    rw [genLoop_errors, pubLoop_errors]

/-- Witness for C6: a raising discovery call produces a failed, short-circuited
run. -/
theorem item_errors_absorbed_only_discovery_fatal_witness :
    failDiscovery.api = Except.error "connection refused" ∧
    (execute_full_content_pipeline failDiscovery allOkEnv ["tiktok"] 3).status
      = "failed" ∧
    (execute_full_content_pipeline failDiscovery allOkEnv ["tiktok"] 3).posts_published
      = 0 :=
  ⟨rfl,
   ((item_errors_absorbed_only_discovery_fatal failDiscovery allOkEnv
      ["tiktok"] 3).2.1 "connection refused" rfl).1,
   ((item_errors_absorbed_only_discovery_fatal failDiscovery allOkEnv
      ["tiktok"] 3).2.1 "connection refused" rfl).2.2.1⟩

/-- Claim C7 counterexample: with 1 published result out of 3 attempts the
stored `success_rate` is `round(100/3, 2) = 33.33`, which differs from the
exact value `100 * 1 / 3` the claim asserts. -/
theorem success_rate_rounding_deviates :
    (calculate_pipeline_metrics thirdRateRecords).success_rate = 3333/100 ∧
    (calculate_pipeline_metrics thirdRateRecords).success_rate ≠
      100 * ((thirdRateRecords.filter fun r => r.status == "published").length : ℚ) /
        (thirdRateRecords.length : ℚ) := by
  have hfilter :
      (thirdRateRecords.filter fun r => r.status == "published").length = 1 := by
    decide
  have hlen : thirdRateRecords.length = 3 := by decide
  have hval : (calculate_pipeline_metrics thirdRateRecords).success_rate
      = 3333/100 := by
    show pyRound2 (if 0 < thirdRateRecords.length then
        ((thirdRateRecords.filter fun r => r.status == "published").length : ℚ) /
          (thirdRateRecords.length : ℚ) * 100
      else 0) = 3333/100
    rw [hfilter, hlen, if_pos (by norm_num)]
    have h : ((1:ℚ)/3*100) * 100 = 10000/3 := by norm_num
    have h2 : ((1:ℕ):ℚ)/((3:ℕ):ℚ)*100 = (1:ℚ)/3*100 := by norm_num
    rw [h2]
    simp only [pyRound2, roundHalfEven, h]
    have hfl : ⌊(10000:ℚ)/3⌋ = 3333 := by norm_num [Int.floor_eq_iff]
    rw [hfl]
    norm_num
  refine ⟨hval, ?_⟩
  rw [hval, hfilter, hlen]
  norm_num

/-- Claim C7, amended: `success_rate` always lies in [0, 100]; when at least
one publication was attempted it equals `100 * published / total` ROUNDED to
two decimal places (Python `round(x, 2)`, ties to even), and when no
publication was attempted it is 0 (the division is guarded). -/
theorem success_rate_in_range_and_rounded (rs : List PubRecord) :
    0 ≤ (calculate_pipeline_metrics rs).success_rate ∧
    (calculate_pipeline_metrics rs).success_rate ≤ 100 ∧
    (0 < rs.length →
      (calculate_pipeline_metrics rs).success_rate =
        pyRound2 (((rs.filter fun r => r.status == "published").length : ℚ) /
          (rs.length : ℚ) * 100)) ∧
    (rs.length = 0 → (calculate_pipeline_metrics rs).success_rate = 0) := by
  have hrate : (calculate_pipeline_metrics rs).success_rate =
      pyRound2 (if 0 < rs.length then
        ((rs.filter fun r => r.status == "published").length : ℚ) /
          (rs.length : ℚ) * 100
      else 0) := rfl
  have hq0 : 0 ≤ (if 0 < rs.length then
      ((rs.filter fun r => r.status == "published").length : ℚ) /
        (rs.length : ℚ) * 100
    else 0) := by
    split_ifs with ht
    · positivity
    · norm_num
  have hq1 : (if 0 < rs.length then
      ((rs.filter fun r => r.status == "published").length : ℚ) /
        (rs.length : ℚ) * 100
    else 0) ≤ 100 := by
    split_ifs with ht
    · have hpt : (rs.filter fun r => r.status == "published").length ≤ rs.length :=
        List.length_filter_le _ _
      have h1 : ((rs.filter fun r => r.status == "published").length : ℚ) /
          (rs.length : ℚ) ≤ 1 := by
        rw [div_le_one (by exact_mod_cast ht)]
        exact_mod_cast hpt
      linarith
    · norm_num
  refine ⟨?_, ?_, ?_, ?_⟩
  · rw [hrate]
    exact pyRound2_nonneg _ hq0
  · rw [hrate]
    exact pyRound2_le_hundred _ hq1
  · intro ht
    rw [hrate, if_pos ht]
  · intro ht
    rw [hrate, if_neg (by omega)]
    exact pyRound2_zero

/-- Witness for the amended C7 at the 1-of-3 record list. -/
theorem success_rate_in_range_and_rounded_witness :
    0 < thirdRateRecords.length ∧
    (calculate_pipeline_metrics thirdRateRecords).success_rate =
      pyRound2 (((thirdRateRecords.filter fun r => r.status == "published").length : ℚ) /
        (thirdRateRecords.length : ℚ) * 100) ∧
    0 ≤ (calculate_pipeline_metrics thirdRateRecords).success_rate :=
  ⟨by decide,
   (success_rate_in_range_and_rounded thirdRateRecords).2.2.1 (by decide),
   (success_rate_in_range_and_rounded thirdRateRecords).1⟩

/-- Claim C8: `platforms_reached` is a duplicate-free list containing exactly
the platforms that have at least one `published` result in the run; a platform
all of whose results failed is never in it. -/
theorem platforms_reached_have_published_result (rs : List PubRecord)
    (x : Option String) :
    (x ∈ (calculate_pipeline_metrics rs).platforms_reached ↔
      ∃ r ∈ rs, r.status = "published" ∧ r.platform = x) ∧
    (calculate_pipeline_metrics rs).platforms_reached.Nodup := by
  constructor
  · show x ∈ ((rs.filter fun r => r.status == "published").map PubRecord.platform).dedup
      ↔ _
    rw [List.mem_dedup, List.mem_map]
    constructor
    · rintro ⟨r, hr, hx⟩
      rw [List.mem_filter] at hr
      exact ⟨r, hr.1, by simpa using hr.2, hx⟩
    · rintro ⟨r, hr, hs, hx⟩
      exact ⟨r, List.mem_filter.mpr ⟨hr, by simp [hs]⟩, hx⟩
  · exact List.nodup_dedup _

/-- Witness for C8: tiktok, which has a published result in
`thirdRateRecords`, is reached. -/
theorem platforms_reached_have_published_result_witness :
    some "tiktok" ∈ (calculate_pipeline_metrics thirdRateRecords).platforms_reached :=
  (platforms_reached_have_published_result thirdRateRecords (some "tiktok")).1.mpr
    ⟨{ platform := some "tiktok", status := "published", post_id := none,
       post_url := none, reach_potential := 10000 },
     by decide, rfl, rfl⟩

/-- Claim C9: the pipeline entry point always returns a result record (it is a
total function of its inputs in this model), and the status of that record is
always `completed` or `failed` — the initial value `started` never reaches the
caller. -/
theorem pipeline_returns_terminal_status (dw : DiscoveryWorld) (env : PipelineEnv)
    (tp : List String) (n : ℤ) :
    ((execute_full_content_pipeline dw env tp n).status = "completed" ∨
      (execute_full_content_pipeline dw env tp n).status = "failed") ∧
    (execute_full_content_pipeline dw env tp n).status ≠ "started" := by
  by_cases hp : (discover_and_save_products dw n).isEmpty <;>
    simp [execute_full_content_pipeline, hp]

/-- Witness for C9 at a concrete run. -/
theorem pipeline_returns_terminal_status_witness :
    ((execute_full_content_pipeline emptyDiscovery nullGenEnv [] 0).status
        = "completed" ∨
      (execute_full_content_pipeline emptyDiscovery nullGenEnv [] 0).status
        = "failed") ∧
    (execute_full_content_pipeline emptyDiscovery nullGenEnv [] 0).status
      ≠ "started" :=
  pipeline_returns_terminal_status emptyDiscovery nullGenEnv [] 0

/-- Claim C10: for a product limit n ≥ 0, `products_discovered` never exceeds
n; it equals the length of the saved product list, and the discovery step
truncates the fetched candidate list to its first n entries before saving. -/
theorem product_limit_bounds_discovery (dw : DiscoveryWorld) (env : PipelineEnv)
    (tp : List String) (n : ℤ) (h : 0 ≤ n) :
    ((execute_full_content_pipeline dw env tp n).products_discovered : ℤ) ≤ n ∧
    (execute_full_content_pipeline dw env tp n).products_discovered =
      (discover_and_save_products dw n).length ∧
    ∀ data, dw.api = Except.ok data →
      discover_and_save_products dw n =
        (data.take n.toNat).enum.filterMap fun p => dw.save p.1 p.2 := by
  have hpd : (execute_full_content_pipeline dw env tp n).products_discovered =
      (discover_and_save_products dw n).length := by
    by_cases hp : (discover_and_save_products dw n).isEmpty <;>
      simp [execute_full_content_pipeline, hp]
  refine ⟨?_, hpd, ?_⟩
  · rw [hpd]
    exact discover_length_le_limit dw n h
  · intro data hdata
    simp only [discover_and_save_products, pySliceTo, hdata, if_pos h]

/-- Witness for C10: three fetched products with limit 2 give exactly 2
discovered products. -/
theorem product_limit_bounds_discovery_witness :
    (0:ℤ) ≤ 2 ∧
    ((execute_full_content_pipeline threeProductDiscovery allOkEnv
        ["tiktok"] 2).products_discovered : ℤ) ≤ 2 ∧
    (execute_full_content_pipeline threeProductDiscovery allOkEnv
        ["tiktok"] 2).products_discovered = 2 :=
  ⟨by decide,
   (product_limit_bounds_discovery threeProductDiscovery allOkEnv ["tiktok"] 2
      (by decide)).1,
   by decide⟩

end ContentFactory
